import Mathlib

/-!
Shallow embedding of `src/dashboard.py` (electricity-ai-analysis).

Dates are modelled as calendar dates carrying their `toordinal` day count
(an integer) and their month-of-year component (`Fin 12`), the two
attributes the script reads (`pd.Timestamp.toordinal` at lines 19/62 and
`dt.strftime("%B")` at line 91).  Metric values are rationals.  The
persisted-model store (`models/*.pkl`) is a record of three optional
fitted models; `sklearn.LinearRegression.fit` on a single feature is
ordinary least squares, embedded as `fitLinear`.
-/

namespace Dashboard

/-- A calendar date as the script observes it: its ordinal day count and
its month-of-year component. -/
structure Date where
  ord : ℤ
  month : Fin 12
deriving DecidableEq, Repr

/-- One row of `data/merged.csv` (line 15): date, usage, unit price,
derived daily cost. -/
structure DailyRecord where
  date : Date
  usage_kwh : ℚ
  price_per_kwh : ℚ
  daily_cost : ℚ
deriving DecidableEq, Repr

/-- The fitted linear model a `models/*.pkl` artifact holds: a slope over
ordinal dates and an intercept (`LinearRegression` with one feature). -/
structure TrendModel where
  slope : ℚ
  intercept : ℚ
deriving DecidableEq, Repr

/-- Arithmetic mean of a list of rationals (empty list gives `0/0 = 0`;
never used on an empty list by the theorems below). -/
def listMean (xs : List ℚ) : ℚ := xs.sum / xs.length

/-- Ordinary least squares fit of `y ~ x` with intercept, as
`sklearn.LinearRegression().fit` computes on a single feature
(lines 24-26): slope = Σ(x-x̄)(y-ȳ) / Σ(x-x̄)², intercept = ȳ - slope·x̄.
When the x-variance is zero (all dates equal) the least-norm solution
sklearn returns has slope 0. -/
def fitLinear (xs ys : List ℚ) : TrendModel :=
  let xbar := listMean xs
  let ybar := listMean ys
  let sxx := (xs.map (fun x => (x - xbar) * (x - xbar))).sum
  let sxy := ((xs.zip ys).map (fun p => (p.1 - xbar) * (p.2 - ybar))).sum
  let slope := if sxx = 0 then 0 else sxy / sxx
  { slope := slope, intercept := ybar - slope * xbar }

/-- The persisted-model store: `models/usage_model.pkl`,
`models/price_model.pkl`, `models/cost_model.pkl`; `none` means the file
is absent. -/
structure Store where
  usage_model : Option TrendModel
  price_model : Option TrendModel
  cost_model : Option TrendModel
deriving DecidableEq, Repr

/-- The store before any run: no artifact exists. -/
def emptyStore : Store := ⟨none, none, none⟩

/-- The condition at line 36: all three model files exist. -/
def allPresent (s : Store) : Bool :=
  s.usage_model.isSome && s.price_model.isSome && s.cost_model.isSome

/-- Function `train_and_save_models(df)` (lines 18-34): fit the three metrics
against the ordinal dates of the same dataframe and persist all three
artifacts. -/
def train_and_save_models (df : List DailyRecord) : Store :=
  let X := df.map (fun r => (r.date.ord : ℚ))
  { usage_model := some (fitLinear X (df.map (fun r => r.usage_kwh)))
    price_model := some (fitLinear X (df.map (fun r => r.price_per_kwh)))
    cost_model := some (fitLinear X (df.map (fun r => r.daily_cost))) }

/-- Lines 36-37: retrain (overwriting every slot) iff at least one of the
three artifacts is absent; otherwise leave the store untouched.  The
boolean reports whether training ran. -/
def trainStep (s : Store) (df : List DailyRecord) : Store × Bool :=
  if allPresent s then (s, false) else (train_and_save_models df, true)

/-- Lines 53-58: unpickle the three artifacts (requires all present). -/
def loadModels (s : Store) : Option (TrendModel × TrendModel × TrendModel) :=
  match s.usage_model, s.price_model, s.cost_model with
  | some u, some p, some c => some (u, p, c)
  | _, _, _ => none

/-- Errors the pandas calls in the forecast path can raise. -/
inductive PandasError where
  | valueError (msg : String)
deriving DecidableEq, Repr

/-- Semantics of `pd.date_range(start, periods=n, freq="D")` on ordinal dates, as
called at line 61: `n` consecutive days starting at `start` inclusive;
pandas raises `ValueError` when `periods` is negative and returns an
empty index when it is zero. -/
def date_range (start : ℤ) (periods : ℤ) : Except PandasError (List ℤ) :=
  if periods < 0 then
    .error (.valueError "Number of samples, should be non-negative")
  else
    .ok ((List.range periods.toNat).map (fun i => start + i))

/-- Value of `df["date"].max()` as an ordinal (line 61). -/
def lastDate (df : List DailyRecord) : ℤ :=
  (df.map (fun r => r.date.ord)).foldl max 0

/-- Line 61: `future_dates = pd.date_range(df["date"].max() +
pd.Timedelta(days=1), periods=90, freq="D")`, as ordinals (line 62 maps
`toordinal` over them). -/
def future_dates (last : ℤ) : List ℤ :=
  match date_range (last + 1) 90 with
  | .ok l => l
  | .error _ => []

/-- Method `model.predict` for a one-feature `LinearRegression`:
`slope * x + intercept`, applied pointwise (lines 64-66). -/
def predict (m : TrendModel) (x : ℤ) : ℚ := m.slope * x + m.intercept

/-- One of the three forecast columns of `forecast_df` (lines 64-73):
the model evaluated on every future ordinal date. -/
def forecast_values (m : TrendModel) (last : ℤ) : List ℚ :=
  (future_dates last).map (predict m)

/-- The forecast path generalized over the number of requested periods,
with the `pd.date_range` semantics of line 61; the script itself always
passes 90. -/
def forecast_with_horizon (m : TrendModel) (last : ℤ) (horizon_days : ℤ) :
    Except PandasError (List (ℤ × ℚ)) :=
  (date_range (last + 1) horizon_days).map
    (fun ds => ds.map (fun x => (x, predict m x)))

/-- List `months_order` (lines 97-98). -/
def months_order : List String :=
  ["January", "February", "March", "April", "May", "June",
   "July", "August", "September", "October", "November", "December"]

/-- Format `strftime("%B")` (line 91): the English name of the
month-of-year component of a date. -/
def month_name (m : Fin 12) : String := months_order.getD m.val ""

/-- The rows `groupby("month")` places in the bucket of month name `mn`
(the key column added at line 91). -/
def month_bucket (df : List DailyRecord) (mn : String) : List DailyRecord :=
  df.filter (fun r => month_name r.date.month == mn)

/-- Result of `df.groupby("month")[col].mean()` looked up at month name `mn`:
pandas produces a group only for month names present in the data, so an
empty bucket yields no entry (`none`); a non-empty bucket yields the
arithmetic mean of `col` over the bucket. -/
def groupby_mean (f : DailyRecord → ℚ) (df : List DailyRecord) (mn : String) :
    Option ℚ :=
  let b := month_bucket df mn
  if b.isEmpty then none else some (listMean (b.map f))

/-- Method `.reindex(months_order)` (lines 99/165): one entry per
canonical month name, in order; months absent from the grouped result get
the pandas `NaN` missing-value sentinel, modelled as `none`. -/
def reindex_months (g : String → Option ℚ) : List (String × Option ℚ) :=
  months_order.map (fun mn => (mn, g mn))

/-- Variable `monthly_usage` after lines 94 and 99: per-month mean of
`usage_kwh`, reindexed to the twelve canonical months. -/
def monthly_usage (df : List DailyRecord) : List (String × Option ℚ) :=
  reindex_months (groupby_mean (fun r => r.usage_kwh) df)

/-- Variable `monthly_cost` as lines 164-165 define it: per-month mean of
`daily_cost`, reindexed to the twelve canonical months. -/
def monthly_cost (df : List DailyRecord) : List (String × Option ℚ) :=
  reindex_months (groupby_mean (fun r => r.daily_cost) df)

/-- A Python `NameError` raised by the script. -/
inductive ScriptError where
  | nameError (name : String)
deriving DecidableEq, Repr

/-- The module-level variables the seasonality section of the script
assigns; `none` means the name is not yet bound. -/
structure SeasonEnv where
  monthly_usage : Option (List (String × Option ℚ)) := none
  monthly_cost : Option (List (String × Option ℚ)) := none
  monthly_usage_cost : Option (List (String × Option ℚ × Option ℚ)) := none
deriving DecidableEq, Repr

/-- Lines 91-99: bind `monthly_usage`. -/
def stmt_assign_monthly_usage (df : List DailyRecord) (e : SeasonEnv) :
    Except ScriptError SeasonEnv :=
  .ok { e with monthly_usage := some (monthly_usage df) }

/-- Lines 108-111: build `monthly_usage_cost` from the names
`monthly_usage` and `monthly_cost`, aligned on `months_order`; reading
an unbound name raises `NameError` (Python evaluates the dict values in
source order, `monthly_usage` first). -/
def stmt_assign_monthly_usage_cost (e : SeasonEnv) :
    Except ScriptError SeasonEnv :=
  match e.monthly_usage with
  | none => .error (.nameError "monthly_usage")
  | some mu =>
    match e.monthly_cost with
    | none => .error (.nameError "monthly_cost")
    | some mc =>
      let rows := months_order.map
        (fun mn => (mn, (mu.lookup mn).join, (mc.lookup mn).join))
      .ok { e with monthly_usage_cost := some rows }

/-- Lines 164-165: bind `monthly_cost`. -/
def stmt_assign_monthly_cost (df : List DailyRecord) (e : SeasonEnv) :
    Except ScriptError SeasonEnv :=
  .ok { e with monthly_cost := some (monthly_cost df) }

/-- The seasonality section of the script in statement order: the
`monthly_usage` assignment (lines 91-99), then the `monthly_usage_cost`
construction (lines 108-111), then the `monthly_cost` assignment
(lines 164-165). -/
def seasonality_section (df : List DailyRecord) :
    Except ScriptError SeasonEnv :=
  stmt_assign_monthly_usage df {} >>= fun e1 =>
  stmt_assign_monthly_usage_cost e1 >>= fun e2 =>
  stmt_assign_monthly_cost df e2

/-! Concrete inputs used by counterexamples and witnesses. -/

/-- A single January record (2023-01-01 has ordinal 738521). -/
def janRec : DailyRecord := ⟨⟨738521, ⟨0, by decide⟩⟩, 1, 1/2, 1/2⟩

/-- A two-row series: usage rises by 2 per day (fitted slope 2). -/
def dfA : List DailyRecord :=
  [⟨⟨0, ⟨0, by decide⟩⟩, 0, 0, 0⟩, ⟨⟨1, ⟨0, by decide⟩⟩, 2, 2, 2⟩]

/-- The series `dfA` with a single value edited: usage on the second day
changed from 2 to 4 (fitted slope 4). -/
def dfB : List DailyRecord :=
  [⟨⟨0, ⟨0, by decide⟩⟩, 0, 0, 0⟩, ⟨⟨1, ⟨0, by decide⟩⟩, 4, 2, 2⟩]

/-- An invalid series: two rows with the same (duplicate) date. -/
def dfDup : List DailyRecord :=
  [⟨⟨5, ⟨0, by decide⟩⟩, 1, 1, 1⟩, ⟨⟨5, ⟨0, by decide⟩⟩, 3, 3, 3⟩]

/-! Helper lemmas shared across the claims. -/

/-- Unfolding of the future-date range: line 61 yields the 90 ordinals
`last+1, ..., last+90`. -/
theorem future_dates_eq (last : ℤ) :
    future_dates last = (List.range 90).map (fun (i : ℕ) => last + 1 + (i : ℤ)) :=
  rfl

/-- Indexing into the future-date range. -/
theorem future_dates_getElem (last : ℤ) (i : ℕ) (h : i < 90) :
    (future_dates last)[i]? = some (last + 1 + i) := by
  rw [future_dates_eq, List.getElem?_map, List.getElem?_range h]
  rfl

/-- Looking up a month that occurs in a list of month names finds the
value the reindexing attached to it. -/
theorem lookup_map_self {α : Type} (g : String → α) :
    ∀ (l : List String) (mn : String), mn ∈ l →
      (l.map (fun x => (x, g x))).lookup mn = some (g mn) := by
  intro l
  induction l with
  | nil => intro mn h; cases h
  | cons a t ih =>
    intro mn h
    by_cases hma : mn = a
    · subst hma
      simp [List.lookup]
    · have ht : mn ∈ t := by
        rcases List.mem_cons.mp h with h1 | h1
        · exact absurd h1 hma
        · exact h1
      have hba : (mn == a) = false := beq_eq_false_iff_ne.mpr hma
      simp [List.lookup, hba, ih mn ht]

/-- Looking up a canonical month in a reindexed series yields exactly the
grouped value for that month. -/
theorem lookup_reindex (g : String → Option ℚ) (mn : String)
    (hm : mn ∈ months_order) :
    (reindex_months g).lookup mn = some (g mn) :=
  lookup_map_self g months_order mn hm

/-! The claims. -/

/-- C1: counterexample.  The series `dfB` differs from `dfA` in a single
usage value, yet after a run has trained and persisted models from `dfA`,
the next train-or-skip step on `dfB` does not retrain (the check at
line 36 only tests file existence), leaves the store unchanged, and the
persisted usage model is not the model a fresh fit of `dfB` would give. -/
theorem C1_counterexample :
    (trainStep (trainStep emptyStore dfA).1 dfB).2 = false ∧
    (trainStep (trainStep emptyStore dfA).1 dfB).1 = (trainStep emptyStore dfA).1 ∧
    (trainStep (trainStep emptyStore dfA).1 dfB).1.usage_model ≠
      some (fitLinear (dfB.map (fun r => (r.date.ord : ℚ)))
        (dfB.map (fun r => r.usage_kwh))) := by
  refine ⟨rfl, rfl, ?_⟩
  have hs : (trainStep (trainStep emptyStore dfA).1 dfB).1.usage_model
      = some (fitLinear (dfA.map (fun r => (r.date.ord : ℚ)))
          (dfA.map (fun r => r.usage_kwh))) := rfl
  have hA : fitLinear (dfA.map (fun r => (r.date.ord : ℚ)))
      (dfA.map (fun r => r.usage_kwh)) = ⟨2, 0⟩ := by
    norm_num [fitLinear, listMean, dfA]
  have hB : fitLinear (dfB.map (fun r => (r.date.ord : ℚ)))
      (dfB.map (fun r => r.usage_kwh)) = ⟨4, 0⟩ := by
    norm_num [fitLinear, listMean, dfB]
  rw [hs, hA, hB]
  intro hc
  have : (2 : ℚ) = 4 := congrArg (fun o => (o.getD ⟨0, 0⟩).slope) hc
  norm_num at this

/-- C1 (amended): the cache-miss check at lines 36-37 tests only the
existence of the three model files, not a data fingerprint; whenever all
three artifacts exist, a run with any series (in particular a changed
one) performs no retraining and keeps the previously persisted models. -/
theorem C1_no_retrain_when_artifacts_present (s : Store)
    (df : List DailyRecord) (h : allPresent s = true) :
    trainStep s df = (s, false) := by
  simp [trainStep, h]

/-- C1 witness: a store trained from `dfA` has all artifacts present, and
the step on the edited series `dfB` returns it unchanged. -/
theorem C1_witness :
    allPresent (train_and_save_models dfA) = true ∧
    trainStep (train_and_save_models dfA) dfB = (train_and_save_models dfA, false) :=
  ⟨rfl, C1_no_retrain_when_artifacts_present (train_and_save_models dfA) dfB rfl⟩

/-- C2: for every input series the seasonality section of the script
stops with `NameError` on the name `monthly_cost`: line 110 reads
`monthly_cost` inside the grouped usage/cost construction, but the name
is first assigned only at line 164, so the mean cost is never reported. -/
theorem C2_seasonality_crashes_nameError (df : List DailyRecord) :
    seasonality_section df = .error (.nameError "monthly_cost") :=
  rfl

/-- C3: for every last historical date, the forecast date range consists
of exactly 90 points, the first is exactly one day after the last date,
every subsequent point is exactly one day after the previous, and all
points are strictly after the last date and strictly ascending. -/
theorem C3_forecast_dates (d : ℤ) :
    (future_dates d).length = 90 ∧
    (future_dates d)[0]? = some (d + 1) ∧
    (∀ i : ℕ, i + 1 < 90 →
      (future_dates d)[i + 1]? = ((future_dates d)[i]?).map (fun x => x + 1)) ∧
    (∀ x ∈ future_dates d, d < x) ∧
    (future_dates d).Pairwise (· < ·) := by
  refine ⟨?_, ?_, ?_, ?_, ?_⟩
  · rw [future_dates_eq]; simp
  · simpa using future_dates_getElem d 0 (by norm_num)
  · intro i hi
    rw [future_dates_getElem d (i + 1) hi,
      future_dates_getElem d i (by omega)]
    simp [Option.map_some]
    ring
  · intro x hx
    rw [future_dates_eq] at hx
    rcases List.mem_map.mp hx with ⟨i, hi, rfl⟩
    omega
  · rw [future_dates_eq]
    exact List.pairwise_map.mpr
      ((List.pairwise_lt_range 90).imp (fun h => by omega))

/-- C3 witness: the forecast range after last date 0 has 90 points, opens
at day 1, and its second point is one day after its first. -/
theorem C3_witness :
    (future_dates 0).length = 90 ∧
    (future_dates 0)[0]? = some (0 + 1) ∧
    (future_dates 0)[0 + 1]? = ((future_dates 0)[0]?).map (fun x => x + 1) :=
  ⟨(C3_forecast_dates 0).1, (C3_forecast_dates 0).2.1,
    (C3_forecast_dates 0).2.2.1 0 (by norm_num)⟩

/-- C4: for every model and every index into the 90-day horizon, the
forecast value equals slope times the ordinal date plus intercept,
exactly as `predict` computes it, with no clamping applied anywhere in
the pipeline (the witness exhibits a negative value returned as-is). -/
theorem C4_forecast_value (m : TrendModel) (last : ℤ) (i : ℕ)
    (h : i < 90) :
    (forecast_values m last)[i]? =
      some (m.slope * (last + 1 + i) + m.intercept) := by
  unfold forecast_values
  rw [List.getElem?_map, future_dates_getElem last i h]
  simp [predict]

/-- C4 witness: a model with slope -1 and intercept 0 forecasts the
negative value -1 on the first day after last date 0; the value is
returned unclamped. -/
theorem C4_witness :
    (0 : ℕ) < 90 ∧
    (forecast_values ⟨-1, 0⟩ 0)[0]? = some ((-1 : ℚ)) ∧ ((-1 : ℚ) < 0) := by
  refine ⟨by norm_num, ?_, by norm_num⟩
  have h := C4_forecast_value ⟨-1, 0⟩ 0 0 (by norm_num)
  simpa using h

/-- C5: for every input series and every canonical month, each of the
two per-month mean series has exactly twelve entries keyed by the
calendar months in January-to-December order; a month with zero records
carries the missing-value sentinel (never a numeric zero), and a month
with records carries a numeric mean. -/
theorem C5_seasonality_shape (df : List DailyRecord) (mn : String)
    (hm : mn ∈ months_order) :
    (monthly_usage df).map Prod.fst = months_order ∧
    (monthly_cost df).map Prod.fst = months_order ∧
    (monthly_usage df).length = 12 ∧
    (monthly_cost df).length = 12 ∧
    (month_bucket df mn = [] →
      (monthly_usage df).lookup mn = some none ∧
      (monthly_cost df).lookup mn = some none) ∧
    (month_bucket df mn ≠ [] →
      (∃ q, (monthly_usage df).lookup mn = some (some q)) ∧
      (∃ q, (monthly_cost df).lookup mn = some (some q))) := by
  have hmap : ∀ g : String → Option ℚ,
      (reindex_months g).map Prod.fst = months_order := by
    intro g
    simp [reindex_months, Function.comp_def]
  have hlen : ∀ g : String → Option ℚ, (reindex_months g).length = 12 := by
    intro g
    simp [reindex_months, months_order]
  refine ⟨hmap _, hmap _, hlen _, hlen _, ?_, ?_⟩
  · intro hempty
    constructor
    · simp only [monthly_usage]
      rw [lookup_reindex _ _ hm]
      simp [groupby_mean, hempty]
    · simp only [monthly_cost]
      rw [lookup_reindex _ _ hm]
      simp [groupby_mean, hempty]
  · intro hne
    have hie : (month_bucket df mn).isEmpty = false := by
      simpa [List.isEmpty_iff] using hne
    constructor
    · refine ⟨listMean ((month_bucket df mn).map (fun r => r.usage_kwh)), ?_⟩
      simp only [monthly_usage]
      rw [lookup_reindex _ _ hm]
      simp [groupby_mean, hie]
    · refine ⟨listMean ((month_bucket df mn).map (fun r => r.daily_cost)), ?_⟩
      simp only [monthly_cost]
      rw [lookup_reindex _ _ hm]
      simp [groupby_mean, hie]

/-- C5 witness: on a single-January series the rows are the twelve
canonical months in order, January carries numeric means, and July (no
records) carries the sentinel for both means. -/
theorem C5_witness :
    "January" ∈ months_order ∧ "July" ∈ months_order ∧
    (monthly_usage [janRec]).map Prod.fst = months_order ∧
    (month_bucket [janRec] "January" ≠ [] →
      (∃ q, (monthly_usage [janRec]).lookup "January" = some (some q)) ∧
      (∃ q, (monthly_cost [janRec]).lookup "January" = some (some q))) ∧
    (month_bucket [janRec] "July" = [] →
      (monthly_usage [janRec]).lookup "July" = some none ∧
      (monthly_cost [janRec]).lookup "July" = some none) :=
  ⟨by decide, by decide,
   (C5_seasonality_shape [janRec] "January" (by decide)).1,
   (C5_seasonality_shape [janRec] "January" (by decide)).2.2.2.2.2,
   (C5_seasonality_shape [janRec] "July" (by decide)).2.2.2.2.1⟩

/-- C6: starting with no persisted artifacts, two consecutive runs on
the identical series train exactly once: the first run trains (flag
true), the second run is a pure cache hit (flag false) that leaves the
store unchanged and loads exactly the three models fitted from the
series, so the returned models — coefficients included — are
identical. -/
theorem C6_cache_hit_second_call (df : List DailyRecord)
    (_hlen : 2 ≤ df.length)
    (_hmono : List.Chain' (· < ·) (df.map (fun r => r.date.ord))) :
    (trainStep emptyStore df).2 = true ∧
    (trainStep (trainStep emptyStore df).1 df).2 = false ∧
    (trainStep (trainStep emptyStore df).1 df).1 = (trainStep emptyStore df).1 ∧
    loadModels (trainStep (trainStep emptyStore df).1 df).1 =
      some (fitLinear (df.map (fun r => (r.date.ord : ℚ))) (df.map (fun r => r.usage_kwh)),
            fitLinear (df.map (fun r => (r.date.ord : ℚ))) (df.map (fun r => r.price_per_kwh)),
            fitLinear (df.map (fun r => (r.date.ord : ℚ))) (df.map (fun r => r.daily_cost))) :=
  ⟨rfl, rfl, rfl, rfl⟩

/-- C6 witness: on the two-row series `dfA` the first run trains, the
second is a cache hit returning the unchanged store. -/
theorem C6_witness :
    2 ≤ dfA.length ∧
    List.Chain' (· < ·) (dfA.map (fun r => r.date.ord)) ∧
    (trainStep emptyStore dfA).2 = true ∧
    (trainStep (trainStep emptyStore dfA).1 dfA).2 = false ∧
    (trainStep (trainStep emptyStore dfA).1 dfA).1 = (trainStep emptyStore dfA).1 := by
  have hc : List.Chain' (· < ·) (dfA.map (fun r => r.date.ord)) := by
    norm_num [dfA, List.chain'_cons]
  exact ⟨by decide, hc,
    (C6_cache_hit_second_call dfA (by decide) hc).1,
    (C6_cache_hit_second_call dfA (by decide) hc).2.1,
    (C6_cache_hit_second_call dfA (by decide) hc).2.2.1⟩

/-- C7: counterexample.  The script performs no input validation: on the
duplicate-date series `dfDup` the run does not fail fast — it trains
models on the invalid series and writes all three cache slots. -/
theorem C7_counterexample :
    ¬ List.Chain' (· < ·) (dfDup.map (fun r => r.date.ord)) ∧
    (trainStep emptyStore dfDup).2 = true ∧
    allPresent (trainStep emptyStore dfDup).1 = true ∧
    (trainStep emptyStore dfDup).1.usage_model =
      some (fitLinear (dfDup.map (fun r => (r.date.ord : ℚ)))
        (dfDup.map (fun r => r.usage_kwh))) := by
  refine ⟨?_, rfl, rfl, rfl⟩
  norm_num [dfDup, List.chain'_cons]

/-- C7 (amended): the pipeline validates nothing: a series whose dates
are not strictly increasing (duplicates or out of order) is accepted
unchanged, the train step trains and persists all three models on it,
and no error of any kind is raised. -/
theorem C7_no_validation (df : List DailyRecord)
    (_hbad : ¬ List.Chain' (· < ·) (df.map (fun r => r.date.ord))) :
    trainStep emptyStore df = (train_and_save_models df, true) ∧
    allPresent (trainStep emptyStore df).1 = true :=
  ⟨rfl, rfl⟩

/-- C7 witness: the duplicate-date series is trained and persisted. -/
theorem C7_witness :
    (¬ List.Chain' (· < ·) (dfDup.map (fun r => r.date.ord))) ∧
    trainStep emptyStore dfDup = (train_and_save_models dfDup, true) := by
  have hb : ¬ List.Chain' (· < ·) (dfDup.map (fun r => r.date.ord)) := by
    norm_num [dfDup, List.chain'_cons]
  exact ⟨hb, (C7_no_validation dfDup hb).1⟩

/-- C8: counterexample.  A zero-day horizon fails with no error at all:
under the date-range semantics of line 61 the forecast is the empty
sequence; no InvalidHorizonError exists anywhere in the code. -/
theorem C8_counterexample :
    forecast_with_horizon ⟨1, 0⟩ 0 0 = .ok [] :=
  rfl

/-- C8 (amended): for a non-positive horizon the generalized forecast
path returns the empty sequence (horizon zero) or fails with the generic
pandas ValueError (negative horizon), never an InvalidHorizonError; the
script itself always requests the fixed horizon 90, producing the 90
future dates. -/
theorem C8_horizon_semantics (m : TrendModel) (last hz : ℤ)
    (hle : hz ≤ 0) :
    (hz = 0 → forecast_with_horizon m last hz = .ok []) ∧
    (hz < 0 → forecast_with_horizon m last hz =
      .error (.valueError "Number of samples, should be non-negative")) ∧
    forecast_with_horizon m last 90 =
      .ok ((future_dates last).map (fun x => (x, predict m x))) := by
  refine ⟨?_, ?_, rfl⟩
  · rintro rfl
    rfl
  · intro hneg
    simp [forecast_with_horizon, date_range, hneg, Except.map]

/-- C8 witness: a horizon of -1 yields the pandas ValueError. -/
theorem C8_witness :
    ((-1 : ℤ) ≤ 0) ∧
    forecast_with_horizon ⟨2, 3⟩ 10 (-1) =
      .error (.valueError "Number of samples, should be non-negative") :=
  ⟨by norm_num,
   (C8_horizon_semantics ⟨2, 3⟩ 10 (-1) (by norm_num)).2.1 (by norm_num)⟩

/-- C9: forecasting is deterministic: any two models that agree on slope
and intercept produce identical forecast sequences over the same range
after the same last date — the computation is a pure function of the
coefficients and the caller-supplied date, with no hidden input. -/
theorem C9_forecast_deterministic (m₁ m₂ : TrendModel) (last : ℤ)
    (hs : m₁.slope = m₂.slope) (hi : m₁.intercept = m₂.intercept) :
    forecast_values m₁ last = forecast_values m₂ last := by
  cases m₁
  cases m₂
  cases hs
  cases hi
  rfl

/-- C9 witness: two syntactically separate but equal models forecast
identically after last date 0. -/
theorem C9_witness :
    (TrendModel.mk 1 2).slope = (TrendModel.mk 1 2).slope ∧
    forecast_values ⟨1, 2⟩ 0 = forecast_values ⟨1, 2⟩ 0 :=
  ⟨rfl, C9_forecast_deterministic ⟨1, 2⟩ ⟨1, 2⟩ 0 rfl rfl⟩

/-- C10: for every nonempty input dataframe the train-or-skip step is
all-or-nothing: it triggers exactly when at least one of the three
artifacts is absent; when it triggers it replaces the whole store with
the three models fitted from the same input dataframe in one step; when
it skips it leaves the store untouched; and in either case all three
artifacts exist afterwards.  A zero-row dataframe is excluded: there
`LinearRegression().fit` raises ValueError at line 24 before anything is
persisted. -/
theorem C10_train_all_or_nothing (s : Store) (df : List DailyRecord)
    (_hne : df ≠ []) :
    ((trainStep s df).2 = !allPresent s) ∧
    allPresent (trainStep s df).1 = true ∧
    ((trainStep s df).2 = true → (trainStep s df).1 = train_and_save_models df) ∧
    ((trainStep s df).2 = false → (trainStep s df).1 = s) := by
  by_cases hp : allPresent s = true
  · have ht : trainStep s df = (s, false) := by simp [trainStep, hp]
    refine ⟨by rw [ht, hp]; rfl, by rw [ht]; exact hp, ?_, ?_⟩
    · intro h2
      rw [ht] at h2
      simp at h2
    · intro _
      rw [ht]
  · have hf : allPresent s = false := by simpa using hp
    have ht : trainStep s df = (train_and_save_models df, true) := by
      simp [trainStep, hf]
    refine ⟨by rw [ht, hf]; rfl, by rw [ht]; rfl, ?_, ?_⟩
    · intro _
      rw [ht]
    · intro h2
      rw [ht] at h2
      simp at h2

/-- C10 witness: the nonempty series `dfA` discharges the hypothesis;
from the empty store the step trains, produces the models fitted from
`dfA`, and leaves all three artifacts present. -/
theorem C10_witness :
    dfA ≠ [] ∧
    ((trainStep emptyStore dfA).2 = true →
      (trainStep emptyStore dfA).1 = train_and_save_models dfA) ∧
    allPresent (trainStep emptyStore dfA).1 = true :=
  ⟨by simp [dfA],
   (C10_train_all_or_nothing emptyStore dfA (by simp [dfA])).2.2.1,
   (C10_train_all_or_nothing emptyStore dfA (by simp [dfA])).2.1⟩

end Dashboard
